import Mathlib

/-!
Shallow embedding of src/index.ts of node-portaudio: the AudioInput (capture)
and AudioOutput (playback) stream adapters around the native PortAudio engine.

The adapter logic (the bodies of _read, write, quit, abort and the constructor
wiring) is translated directly from src/index.ts. Behaviour of the native
engine (NodePA.AudioIn / NodePA.AudioOut, repository code that is not under
src/) is modelled from the specification where a claim depends on it; each
such definition carries a doc comment starting with: Modelled from the spec.
-/

set_option autoImplicit false

/-- JavaScript values relevant to the callback parameters of the adapter
methods: undefined, a function value (tagged by a numeric id), or some other
non-function value. -/
inductive JSValue
  | undef
  | fn (id : Nat)
  | other
  deriving DecidableEq, Repr

/-- Truthiness of a JSValue: undefined is falsy; function values are truthy.
The variant JSValue.other stands for a truthy non-function value; a falsy
non-function would take the same branch in every guard modelled here. -/
def JSValue.truthy : JSValue → Bool
  | JSValue.undef => false
  | _ => true

/-- The test corresponding to the JS check that typeof cb is a function. -/
def JSValue.isFunctionType : JSValue → Bool
  | JSValue.fn _ => true
  | _ => false

/-- Calling a JSValue as a function: a function value yields the list of user
callback ids invoked; any other value raises a TypeError. -/
def callJS : JSValue → Except String (List Nat)
  | JSValue.fn id => Except.ok [id]
  | _ => Except.error "TypeError: not a function"

/-! ### Capture side: AudioInput (src/index.ts lines 56-115) -/

/-- Observable actions of the capture adapter toward the device engine and the
stream consumer. -/
inductive CaptureAction
  | issueRead (size : Nat)
  | pushChunk (buf : List Nat)
  | emitError (msg : String)
  deriving DecidableEq, Repr

/-- Result of an asynchronous device read delivered to the callback installed
by AudioInput._read: a node-style error or a buffer. -/
inductive ReadResult
  | err (msg : String)
  | ok (buf : List Nat)
  deriving DecidableEq, Repr

/-- Size actually requested by AudioInput._read: the default parameter value
1024 when the size argument is absent (src line 80). -/
def AudioInput.readSize : Option Nat → Nat
  | some s => s
  | none => 1024

/-- Synchronous part of AudioInput._read (src lines 80-86): a single call to
audio.read of the (defaulted) size. No other action is taken synchronously. -/
def AudioInput._read (size : Option Nat) : List CaptureAction :=
  [CaptureAction.issueRead (AudioInput.readSize size)]

/-- The callback installed by AudioInput._read (src lines 81-85): on success
push the buffer into the stream; on error do nothing at all. -/
def AudioInput.readCallback : ReadResult → List CaptureAction
  | ReadResult.err _ => []
  | ReadResult.ok buf => [CaptureAction.pushChunk buf]

/-- Full action trace of one capture pull: the synchronous read issuance
followed by the actions of its completion callback. -/
def capturePullTrace (p : Option Nat × ReadResult) : List CaptureAction :=
  AudioInput._read p.1 ++ AudioInput.readCallback p.2

/-- Action trace of a sequence of pulls, each paired with the result its
device read completes with. Completions are paired with their pulls in
issuance order, which is the order they arrive in under the spec invariant of
at most one outstanding read. -/
def captureRun : List (Option Nat × ReadResult) → List CaptureAction
  | [] => []
  | p :: rest => capturePullTrace p ++ captureRun rest

/-- Extract the buffer of a push action, if any. -/
def chunkOf : CaptureAction → Option (List Nat)
  | CaptureAction.pushChunk b => some b
  | _ => none

/-- Buffers appended to the delivery queue of the stream, in order. -/
def deliveredBuffers (tr : List CaptureAction) : List (List Nat) :=
  tr.filterMap chunkOf

/-- Extract the buffer of a successful pull, if any. -/
def successOf : Option Nat × ReadResult → Option (List Nat)
  | (_, ReadResult.ok b) => some b
  | (_, ReadResult.err _) => none

/-- Buffers of the successful reads of a pull sequence, in issuance order. -/
def successBuffers (pulls : List (Option Nat × ReadResult)) : List (List Nat) :=
  pulls.filterMap successOf

/-! ### Playback side: AudioOutput (src/index.ts lines 120-181) -/

/-- One write submission handed to the device engine: the chunk together with
the completion callback passed along with it (src line 150). -/
structure PlaySubmit where
  chunk : List Nat
  cb : JSValue
  deriving DecidableEq, Repr

/-- The default value of the cb parameter of AudioOutput.write: a no-op
function (src line 149). -/
def AudioOutput.noopCb : JSValue := JSValue.fn 0

/-- The callback actually handed to the engine by AudioOutput.write: the
caller-supplied one, or the no-op default when none is supplied. -/
def AudioOutput.effectiveWriteCb : Option JSValue → JSValue
  | some cb => cb
  | none => AudioOutput.noopCb

/-- AudioOutput.write (src lines 149-152): synchronously submits exactly one
write of the chunk, with its callback, to the device engine, and returns true
to its caller. It consults no state and defers nothing. -/
def AudioOutput.write (chunk : List Nat) (cb : Option JSValue) :
    List PlaySubmit × Bool :=
  ([PlaySubmit.mk chunk (AudioOutput.effectiveWriteCb cb)], true)

/-- Modelled from the spec: the device engine invokes the callback submitted
with a write when it has accepted or queued that chunk. -/
def DeviceEngine.writeAccepted (s : PlaySubmit) : JSValue := s.cb

/-- Events driving the playback adapter: a producer call of write, or the
engine signalling completion of the oldest outstanding write. -/
inductive PlayEvent
  | push (chunk : List Nat) (cb : JSValue)
  | complete
  deriving DecidableEq, Repr

/-- The sequence of write submissions the device engine receives over a
playback event sequence. Each push event runs AudioOutput.write, whose
submissions happen at that point of the trace. -/
def playTrace : List PlayEvent → List PlaySubmit
  | [] => []
  | PlayEvent.push c cb :: rest => (AudioOutput.write c (some cb)).1 ++ playTrace rest
  | PlayEvent.complete :: rest => playTrace rest

/-- Number of write completions observed within an event sequence. -/
def completeCount : List PlayEvent → Nat
  | [] => 0
  | PlayEvent.complete :: rest => completeCount rest + 1
  | PlayEvent.push _ _ :: rest => completeCount rest

/-- The chunks pushed by the producer, with their callbacks, in call order. -/
def pushedSubmits : List PlayEvent → List PlaySubmit
  | [] => []
  | PlayEvent.push c cb :: rest => PlaySubmit.mk c cb :: pushedSubmits rest
  | PlayEvent.complete :: rest => pushedSubmits rest

/-- The at-most-one-outstanding-write property claimed of the playback
adapter: at every point of every playback event sequence, the number of
submissions handed to the engine exceeds the number of observed completions
by at most one, i.e. a second chunk is never submitted before the prior
completion is observed. -/
def atMostOneOutstandingWrite : Prop :=
  ∀ (evs : List PlayEvent) (n : Nat),
    (playTrace (List.take n evs)).length ≤ completeCount (List.take n evs) + 1

/-! ### quit (src/index.ts lines 108-114 and 174-180) -/

/-- The arrow function AudioInput.quit passes to audio.quit (src lines
109-113): when the engine invokes it, it calls cb only when cb is truthy and
of function type; otherwise it does nothing. It never throws. -/
def AudioInput.quitWrapper (cb : JSValue) : Except String (List Nat) :=
  if cb.truthy && cb.isFunctionType then callJS cb else Except.ok []

/-- The arrow function AudioOutput.quit passes to audio.quit (src lines
175-179), identical in body to the capture one. -/
def AudioOutput.quitWrapper (cb : JSValue) : Except String (List Nat) :=
  if cb.truthy && cb.isFunctionType then callJS cb else Except.ok []

/-- Calls made on the device engine. -/
inductive EngineCall
  | inQuit
  | outQuit
  | inAbort
  | outAbort
  | inStart
  | outStart
  deriving DecidableEq, Repr

/-- AudioInput.quit always makes exactly one audio.quit call on the engine,
whatever the cb argument is (src line 109). -/
def AudioInput.quitEngineCalls (_cb : JSValue) : List EngineCall :=
  [EngineCall.inQuit]

/-- AudioOutput.quit always makes exactly one audio.quit call on the engine,
whatever the cb argument is (src line 175). -/
def AudioOutput.quitEngineCalls (_cb : JSValue) : List EngineCall :=
  [EngineCall.outQuit]

/-- User callback invocations produced by the playback quit wrapper when the
engine fires it (empty when it did not invoke anything). -/
def wrapperInvocations (cb : JSValue) : List Nat :=
  match AudioOutput.quitWrapper cb with
  | Except.ok ids => ids
  | Except.error _ => []

/-- Timeline events of graceful quits: the engine finishing the flush of the
data queued before quit call number i, and a user callback firing. -/
inductive QuitEvent
  | flushDone (i : Nat)
  | userCb (id : Nat)
  deriving DecidableEq, Repr

/-- Modelled from the spec: for quit call number i the native engine flushes
all previously queued and in-flight data, then fires the registered wrapper
exactly once. The segment of the quit timeline owned by that call is the
flush completion followed by whatever the wrapper invokes. -/
def callEvents (cb : JSValue) (i : Nat) : List QuitEvent :=
  QuitEvent.flushDone i :: (wrapperInvocations cb).map QuitEvent.userCb

/-- Timeline of a sequence of quit calls starting at call number i: each call
contributes its own segment, in order. -/
def engineQuitTraceFrom (i : Nat) : List JSValue → List QuitEvent
  | [] => []
  | cb :: rest => callEvents cb i ++ engineQuitTraceFrom (i + 1) rest

/-- Timeline of a sequence of quit calls with the given callbacks. -/
def engineQuitTrace (cbs : List JSValue) : List QuitEvent :=
  engineQuitTraceFrom 0 cbs

/-! ### finish wiring (src/index.ts line 138) -/

/-- Methods of AudioOutput that could be registered as event handlers. -/
inductive OutputMethod
  | quit
  | abortM
  | start
  deriving DecidableEq, Repr

/-- The handler the AudioOutput constructor registers for the finish event of
the writable stream (src line 138): the bound quit method. -/
def AudioOutput.finishHandler : OutputMethod := OutputMethod.quit

/-- Engine calls made when an OutputMethod is invoked with no arguments, as an
event handler is. Translated from the method bodies in src/index.ts. -/
def invokeOutputMethod : OutputMethod → List EngineCall
  | OutputMethod.quit => AudioOutput.quitEngineCalls JSValue.undef
  | OutputMethod.abortM => [EngineCall.outAbort]
  | OutputMethod.start => [EngineCall.outStart]

/-! ### abort (src/index.ts lines 98-100 and 164-166) -/

/-- Consumer-visible state of a capture adapter together with its engine:
whether abort has stopped the engine, and the buffers delivered so far. -/
structure CapState where
  stopped : Bool
  delivered : List (List Nat)
  deriving DecidableEq, Repr

/-- Events in the life of a capture adapter: a pull, a device read completing,
or a call of AudioInput.abort. -/
inductive CapEvent
  | pull (size : Nat)
  | complete (r : ReadResult)
  | abortCall
  deriving DecidableEq, Repr

/-- One step of the capture lifecycle. The completion branch for a running
engine is the callback of src lines 81-85; the abort branch is src line 99.
Modelled from the spec: once audio.abort has run, the engine discards any
in-flight read, so a completion on a stopped engine delivers nothing. -/
def capStep (s : CapState) : CapEvent → CapState
  | CapEvent.pull _ => s
  | CapEvent.complete r =>
      if s.stopped then s
      else
        match r with
        | ReadResult.ok b => { s with delivered := s.delivered ++ [b] }
        | ReadResult.err _ => s
  | CapEvent.abortCall => { s with stopped := true }

/-- Initial capture state: engine running, nothing delivered. -/
def capInit : CapState := CapState.mk false []

/-- Capture state after a sequence of events. -/
def capRun (evs : List CapEvent) : CapState :=
  List.foldl capStep capInit evs

/-- State of the playback engine: whether abort has stopped it, the chunks
accepted but not yet played, and the chunks that reached the hardware. -/
structure PlayEngineState where
  stopped : Bool
  queue : List (List Nat)
  played : List (List Nat)
  deriving DecidableEq, Repr

/-- Events in the life of a playback adapter: a producer push, a hardware
buffer cycle consuming the oldest queued chunk, or a call of
AudioOutput.abort. -/
inductive PlayDevEvent
  | push (c : List Nat)
  | cycle
  | abortCall
  deriving DecidableEq, Repr

/-- One step of the playback engine lifecycle. The abort branch is src line
165. Modelled from the spec: the engine queues accepted writes and plays them
one buffer cycle at a time; audio.abort stops it immediately and discards all
unflushed buffers, and a stopped engine accepts and plays nothing. -/
def playEngStep (s : PlayEngineState) : PlayDevEvent → PlayEngineState
  | PlayDevEvent.push c =>
      if s.stopped then s else { s with queue := s.queue ++ [c] }
  | PlayDevEvent.cycle =>
      if s.stopped then s
      else
        match s.queue with
        | [] => s
        | c :: rest => { s with queue := rest, played := s.played ++ [c] }
  | PlayDevEvent.abortCall => { s with stopped := true, queue := [] }

/-- Initial playback engine state. -/
def playEngInit : PlayEngineState := PlayEngineState.mk false [] []

/-- Playback engine state after a sequence of events. -/
def playEngRun (evs : List PlayDevEvent) : PlayEngineState :=
  List.foldl playEngStep playEngInit evs

/-! ### Construction (src/index.ts lines 67-73 and 131-139) -/

/-- The options record passed to the adapter constructors; absent fields fall
back to device defaults inside the engine. -/
structure AudioOptions where
  deviceId : Option Int
  sampleRate : Option Nat
  channelCount : Option Nat
  sampleFormat : Option Nat
  deriving DecidableEq, Repr

/-- A sampleFormat option is valid when absent or one of the four recognized
widths 8, 16, 24, 32. -/
def validSampleFormat : Option Nat → Bool
  | none => true
  | some f => f == 8 || f == 16 || f == 24 || f == 32

/-- A deviceId option is resolvable when absent, the default sentinel -1, or
one of the enumerated device ids. -/
def resolvableDevice (devices : List Int) : Option Int → Bool
  | none => true
  | some d => d == -1 || devices.contains d

/-- Modelled from the spec: validity of an options record against the device
engine, namely a recognized sampleFormat and a resolvable deviceId. -/
def NodePA.validConfig (devices : List Int) (o : AudioOptions) : Bool :=
  validSampleFormat o.sampleFormat && resolvableDevice devices o.deviceId

/-- A usable handle on an opened device, carrying its resolved config. -/
structure DeviceHandle where
  config : AudioOptions
  deriving DecidableEq, Repr

/-- Modelled from the spec: the native AudioIn constructor (not under src/)
validates its options at open time and either returns a usable handle or
throws, never yielding a half-initialized object. -/
def NodePA.AudioIn (devices : List Int) (o : AudioOptions) :
    Except String DeviceHandle :=
  if NodePA.validConfig devices o then Except.ok (DeviceHandle.mk o)
  else Except.error "invalid AudioOptions"

/-- Modelled from the spec: the native AudioOut constructor, validating its
options exactly as the input one does. -/
def NodePA.AudioOut (devices : List Int) (o : AudioOptions) :
    Except String DeviceHandle :=
  if NodePA.validConfig devices o then Except.ok (DeviceHandle.mk o)
  else Except.error "invalid AudioOptions"

/-- The capture adapter object: its only field is the engine handle. -/
structure AudioInput where
  audio : DeviceHandle
  deriving DecidableEq, Repr

/-- The playback adapter object: its only field is the engine handle. -/
structure AudioOutput where
  audio : DeviceHandle
  deriving DecidableEq, Repr

/-- The AudioInput constructor (src lines 67-73): initializes the stream and
then the engine handle; a throw from the engine propagates and no adapter
object is produced. -/
def AudioInput.construct (devices : List Int) (o : AudioOptions) :
    Except String AudioInput :=
  match NodePA.AudioIn devices o with
  | Except.ok h => Except.ok (AudioInput.mk h)
  | Except.error e => Except.error e

/-- The AudioOutput constructor (src lines 131-139), analogous. -/
def AudioOutput.construct (devices : List Int) (o : AudioOptions) :
    Except String AudioOutput :=
  match NodePA.AudioOut devices o with
  | Except.ok h => Except.ok (AudioOutput.mk h)
  | Except.error e => Except.error e

/-! ### Helper lemmas -/

/-- Delivered buffers distribute over trace concatenation. -/
theorem deliveredBuffers_append (a b : List CaptureAction) :
    deliveredBuffers (a ++ b) = deliveredBuffers a ++ deliveredBuffers b := by
  simp [deliveredBuffers]

/-- A capture state that abort has stopped is frozen: no later event changes
it in any way. -/
theorem capRun_frozen (evs : List CapEvent) :
    ∀ s : CapState, s.stopped = true → List.foldl capStep s evs = s := by
  induction evs with
  | nil => intro s _; rfl
  | cons e rest ih =>
    intro s h
    have hstep : capStep s e = s := by
      cases e with
      | pull n => rfl
      | complete r => simp [capStep, h]
      | abortCall => cases s; simp_all [capStep]
    rw [List.foldl_cons, hstep]
    exact ih s h

/-- A stopped playback engine plays nothing further and stays stopped. -/
theorem playEng_played_frozen (evs : List PlayDevEvent) :
    ∀ s : PlayEngineState, s.stopped = true →
      (List.foldl playEngStep s evs).stopped = true ∧
      (List.foldl playEngStep s evs).played = s.played := by
  induction evs with
  | nil => intro s h; exact ⟨h, rfl⟩
  | cons e rest ih =>
    intro s h
    have hstep : (playEngStep s e).stopped = true ∧
        (playEngStep s e).played = s.played := by
      cases e with
      | push c => simp [playEngStep, h]
      | cycle => simp [playEngStep, h]
      | abortCall => simp [playEngStep]
    rw [List.foldl_cons]
    obtain ⟨ih1, ih2⟩ := ih (playEngStep s e) hstep.1
    exact ⟨ih1, ih2.trans hstep.2⟩

/-! ### Claim theorems -/

/-- Claim C1: a capture pull whose asynchronous device read completes with an
error contributes exactly the one read issuance to the action trace: the
error branch of the callback appends no buffer, surfaces no error and issues
no further read, so only a subsequent pull triggers another device read. -/
theorem capture_read_error_silently_dropped :
    ∀ (s : Option Nat) (msg : String),
      AudioInput.readCallback (ReadResult.err msg) = [] ∧
      capturePullTrace (s, ReadResult.err msg)
        = [CaptureAction.issueRead (AudioInput.readSize s)] := by
  intro s msg
  exact ⟨rfl, rfl⟩

/-- Claim C2 counterexample: the at-most-one-outstanding-write property fails
on the code. Two producer pushes with no intervening completion make
AudioOutput.write hand the engine two submissions while zero completions have
been observed. -/
theorem playback_double_push_counterexample : ¬ atMostOneOutstandingWrite := by
  intro h
  exact absurd
    (h [PlayEvent.push [0] JSValue.undef, PlayEvent.push [1] JSValue.undef] 2)
    (by decide)

/-- Claim C2 amended: AudioOutput.write submits its chunk to the device
engine immediately and synchronously at the point of the call, regardless of
how many prior writes are still outstanding; the adapter performs no
serialization of its own. -/
theorem playback_write_submits_immediately :
    ∀ (pre : List PlayEvent) (c : List Nat) (cb : JSValue),
      playTrace (pre ++ [PlayEvent.push c cb])
        = playTrace pre ++ [PlaySubmit.mk c cb] := by
  intro pre c cb
  induction pre with
  | nil => rfl
  | cons e rest ih =>
    cases e with
    | push c2 cb2 => simp [playTrace, ih]
    | complete => simp [playTrace, ih]

/-- Claim C3: every call of AudioOutput.write submits exactly one
asynchronous device write of the given chunk carrying the given per-chunk
callback, synchronously returns true to its caller, and the engine fires
exactly that callback upon acceptance of the chunk. -/
theorem playback_write_single_submission_accepted :
    ∀ (chunk : List Nat) (cb : JSValue),
      AudioOutput.write chunk (some cb) = ([PlaySubmit.mk chunk cb], true) ∧
      DeviceEngine.writeAccepted (PlaySubmit.mk chunk cb) = cb := by
  intro chunk cb
  exact ⟨rfl, rfl⟩

/-- Claim C4: for a quit call with a function callback, the timeline segment
owned by that call is exactly the flush completion followed by a single
invocation of the callback: the callback fires exactly once, strictly after
the engine has flushed the previously queued data, and never before; distinct
quit calls own disjoint consecutive segments, so each call gets its own
single completion; the capture and playback wrappers behave identically. -/
theorem quit_callback_fires_once_after_flush :
    ∀ (i id : Nat),
      callEvents (JSValue.fn id) i
        = [QuitEvent.flushDone i, QuitEvent.userCb id] ∧
      (∀ cb1 cb2 : JSValue,
        engineQuitTrace [cb1, cb2] = callEvents cb1 0 ++ callEvents cb2 1) ∧
      (∀ cb : JSValue, AudioInput.quitWrapper cb = AudioOutput.quitWrapper cb) := by
  intro i id
  refine ⟨rfl, ?_, fun cb => rfl⟩
  intro cb1 cb2
  simp [engineQuitTrace, engineQuitTraceFrom]

/-- Claim C5: for any playback event sequence, the submissions the device
engine receives are exactly the chunks pushed by the producer, with their
callbacks, in push order. -/
theorem playback_submission_order_preserved :
    ∀ evs : List PlayEvent, playTrace evs = pushedSubmits evs := by
  intro evs
  induction evs with
  | nil => rfl
  | cons e rest ih =>
    cases e with
    | push c cb => simp [playTrace, pushedSubmits, ih, AudioOutput.write,
        AudioOutput.effectiveWriteCb]
    | complete => simp [playTrace, pushedSubmits, ih]

/-- Claim C6: the handler the AudioOutput constructor wires to the finish
event of the stream is the quit method, so an end-of-supply signal from the
producer automatically makes exactly one graceful quit call on the engine. -/
theorem finish_event_triggers_quit :
    AudioOutput.finishHandler = OutputMethod.quit ∧
    invokeOutputMethod AudioOutput.finishHandler = [EngineCall.outQuit] :=
  ⟨rfl, rfl⟩

/-- Claim C7: a capture pull issues exactly one device read of the requested
size, 1024 bytes when the size argument is absent, and over any pull sequence
the buffers appended to the delivery queue are exactly the buffers of the
successful reads, in issuance order. -/
theorem capture_pull_read_size_and_order :
    (∀ s : Nat, AudioInput._read (some s) = [CaptureAction.issueRead s]) ∧
    AudioInput._read none = [CaptureAction.issueRead 1024] ∧
    ∀ pulls : List (Option Nat × ReadResult),
      deliveredBuffers (captureRun pulls) = successBuffers pulls := by
  refine ⟨fun s => rfl, rfl, ?_⟩
  intro pulls
  induction pulls with
  | nil => rfl
  | cons p rest ih =>
    obtain ⟨s, r⟩ := p
    cases r with
    | err m =>
      rw [show captureRun ((s, ReadResult.err m) :: rest)
            = capturePullTrace (s, ReadResult.err m) ++ captureRun rest from rfl,
        deliveredBuffers_append, ih]
      rfl
    | ok b =>
      rw [show captureRun ((s, ReadResult.ok b) :: rest)
            = capturePullTrace (s, ReadResult.ok b) ++ captureRun rest from rfl,
        deliveredBuffers_append, ih]
      rfl

/-- Claim C8: once abort is called, the stopped engine delivers nothing
further: on the capture side the buffers delivered to the consumer after the
abort are exactly those delivered before it, even if a read was in flight,
and on the playback side the chunks that reach the hardware after the abort
are exactly those played before it, even if writes were queued or in
flight. -/
theorem abort_stops_all_delivery :
    (∀ pre post : List CapEvent,
      (capRun (pre ++ CapEvent.abortCall :: post)).delivered
        = (capRun (pre ++ [CapEvent.abortCall])).delivered) ∧
    (∀ pre post : List PlayDevEvent,
      (playEngRun (pre ++ PlayDevEvent.abortCall :: post)).played
        = (playEngRun (pre ++ [PlayDevEvent.abortCall])).played) := by
  constructor
  · intro pre post
    have hsplit : pre ++ CapEvent.abortCall :: post
        = (pre ++ [CapEvent.abortCall]) ++ post := by simp
    have hstop : (List.foldl capStep capInit (pre ++ [CapEvent.abortCall])).stopped
        = true := by
      rw [List.foldl_append]
      rfl
    rw [hsplit]
    unfold capRun
    rw [List.foldl_append]
    rw [capRun_frozen post _ hstop]
  · intro pre post
    have hsplit : pre ++ PlayDevEvent.abortCall :: post
        = (pre ++ [PlayDevEvent.abortCall]) ++ post := by simp
    have hstop : (List.foldl playEngStep playEngInit
        (pre ++ [PlayDevEvent.abortCall])).stopped = true := by
      rw [List.foldl_append]
      rfl
    rw [hsplit]
    unfold playEngRun
    rw [List.foldl_append]
    exact (playEng_played_frozen post _ hstop).2

/-- Claim C9: construction of either adapter on an invalid configuration (an
unsupported sampleFormat or an unresolvable deviceId) fails entirely with an
error, and a successful construction always carries a usable device handle
resolved from exactly the given options, so no adapter is ever
half-initialized. -/
theorem construction_validates_or_throws :
    ∀ (devices : List Int) (o : AudioOptions),
      (NodePA.validConfig devices o = false →
        (∃ e, AudioInput.construct devices o = Except.error e) ∧
        (∃ e, AudioOutput.construct devices o = Except.error e)) ∧
      (∀ a, AudioInput.construct devices o = Except.ok a → a.audio.config = o) ∧
      (∀ b, AudioOutput.construct devices o = Except.ok b → b.audio.config = o) := by
  intro devices o
  refine ⟨?_, ?_, ?_⟩
  · intro hbad
    constructor
    · exact ⟨"invalid AudioOptions", by
        simp [AudioInput.construct, NodePA.AudioIn, hbad]⟩
    · exact ⟨"invalid AudioOptions", by
        simp [AudioOutput.construct, NodePA.AudioOut, hbad]⟩
  · intro a ha
    by_cases hv : NodePA.validConfig devices o
    · simp [AudioInput.construct, NodePA.AudioIn, hv] at ha
      rw [← ha]
    · simp [AudioInput.construct, NodePA.AudioIn, hv] at ha
  · intro b hb
    by_cases hv : NodePA.validConfig devices o
    · simp [AudioOutput.construct, NodePA.AudioOut, hv] at hb
      rw [← hb]
    · simp [AudioOutput.construct, NodePA.AudioOut, hv] at hb

/-- Claim C9 witness: with no devices enumerated and sampleFormat 12 the
capture constructor fails with an error. -/
theorem construction_validates_or_throws_witness :
    ∃ e, AudioInput.construct []
        (AudioOptions.mk none none none (some 12)) = Except.error e :=
  ((construction_validates_or_throws []
      (AudioOptions.mk none none none (some 12))).1 (by decide)).1

/-- Claim C10: quit with an undefined or non-function callback argument does
not throw and invokes nothing, while still making its one graceful quit call
on the engine, on both adapters; and write with no callback supplied hands
the engine the no-op default, so the engine always receives a callable
completion. -/
theorem quit_and_write_callback_safety :
    AudioInput.quitWrapper JSValue.undef = Except.ok [] ∧
    AudioOutput.quitWrapper JSValue.undef = Except.ok [] ∧
    AudioInput.quitWrapper JSValue.other = Except.ok [] ∧
    AudioOutput.quitWrapper JSValue.other = Except.ok [] ∧
    (∀ cb : JSValue,
      AudioInput.quitEngineCalls cb = [EngineCall.inQuit] ∧
      AudioOutput.quitEngineCalls cb = [EngineCall.outQuit]) ∧
    (AudioOutput.effectiveWriteCb none).isFunctionType = true := by
  exact ⟨rfl, rfl, rfl, rfl, fun cb => ⟨rfl, rfl⟩, rfl⟩
